import Mathlib

/-!
Verification development for OctoEngine's frame orchestrator (`src/game.rs`).

The `Game` struct and its operations (`hot_reload`, `prepare_rendering`,
`render`, `resize`, `new`) are embedded as pure Lean functions over an explicit
model of the renderer context's handle arena.  GPU handles are natural numbers;
every device-level side effect is additionally recorded in an explicit trace of
`GpuOp` values so that ordering properties ("destroy A before B", "exactly one
dispatch per frame") can be stated.  Rust `Option` fields become Lean `Option`;
a Rust `unwrap` on `None` (a panic) is modelled by the operation returning
`none`.

The collaborators that live in the repository but outside the file under study
(`renderer_context.rs`, `globals.rs`, `camera.rs`, `voxel_world.rs`,
`file_watcher.rs`, the WGSL shader files) are modelled from the spec's
interface descriptions; each such definition carries a doc comment saying so.
-/

namespace Octo

/-- Pixel format of a texture (`wgpu::TextureFormat`).  `game.rs` only ever
uses `Rgba8Uint`; a second constructor keeps the type non-degenerate. -/
inductive TexFormat
  | rgba8Uint
  | rgba8Unorm
  deriving DecidableEq, Repr

/-- The texture usage flags set by `game.rs`
(`STORAGE_BINDING | TEXTURE_BINDING | COPY_SRC`). -/
structure TexUsage where
  storageBinding : Bool
  textureBinding : Bool
  copySrc : Bool
  deriving DecidableEq, Repr

/-- The parts of `wgpu::TextureDescriptor` that `game.rs` writes and that the
claims mention: size, format and usage flags. -/
structure TextureDesc where
  width : Nat
  height : Nat
  format : TexFormat
  usage : TexUsage
  deriving DecidableEq, Repr

/-- `renderer_context::Resolution`. -/
structure Resolution where
  width : Nat
  height : Nat
  deriving DecidableEq, Repr

/-- `renderer_context::BindingResource`: a texture handle or a buffer handle. -/
inductive BindingResource
  | texture (h : Nat)
  | buffer (h : Nat)
  deriving DecidableEq, Repr

/-- `renderer_context::Binding`: one slot of a bind group. -/
structure Binding where
  binding : Nat
  resource : BindingResource
  deriving DecidableEq, Repr

/-- What the resource manager records for a live bind group: the pipeline
handle it targets and its list of bindings. -/
structure BindGroupRec where
  pipeline : Nat
  bindings : List Binding
  deriving DecidableEq, Repr

/-- One device-level effect issued by the orchestrator, recorded in order. -/
inductive GpuOp
  | destroyShader (h : Nat)
  | destroyComputePipeline (h : Nat)
  | destroyRenderPipeline (h : Nat)
  | destroyBindGroup (h : Nat)
  | createShader (h : Nat)
  | createComputePipeline (h : Nat)
  | createRenderPipeline (h : Nat)
  | createBindGroup (h : Nat)
  | reportCompileError
  | updateCameraBuffer
  | updateWorldTexture
  | updateGlobalsBuffer
  | resizeSurface (r : Resolution)
  | updateTexture (h : Nat) (d : TextureDesc)
  | dispatch (x y z : Nat)
  | draw (v0 v1 i0 i1 : Nat)
  deriving DecidableEq, Repr

/-- Association-list lookup on handle tables. -/
def lookupAssoc {β : Type} (k : Nat) : List (Nat × β) → Option β
  | [] => none
  | (a, b) :: t => if a = k then some b else lookupAssoc k t

/-- Remove a handle's entry from a handle table. -/
def removeKey {β : Type} (k : Nat) : List (Nat × β) → List (Nat × β)
  | [] => []
  | (a, b) :: t => if a = k then removeKey k t else (a, b) :: removeKey k t

/-- Replace the value stored at a handle, leaving other entries alone. -/
def replaceAssoc {β : Type} (k : Nat) (v : β) : List (Nat × β) → List (Nat × β)
  | [] => []
  | (a, b) :: t =>
    if a = k then (k, v) :: replaceAssoc k v t else (a, b) :: replaceAssoc k v t

/-- Remove a bare handle from a handle list. -/
def removeNat (k : Nat) (l : List Nat) : List Nat :=
  l.filter (fun a => a != k)

/-- Modelled from the spec: the Resource Manager half of
`renderer_context::RendererContext` (not under `src/`): an opaque-handle arena
for shader modules, compute/render pipelines, bind groups and textures, plus
the surface resolution.  Handles are allocated from a fresh counter. -/
structure Renderer where
  nextHandle : Nat
  shaders : List Nat
  computePipelines : List (Nat × Nat)
  renderPipelines : List (Nat × Nat)
  bindGroups : List (Nat × BindGroupRec)
  textures : List (Nat × TextureDesc)
  surface : Resolution
  deriving DecidableEq, Repr

/-- Modelled from the spec: `RendererContext::new_shader` on a source that
compiles — allocate a fresh shader handle. -/
def Renderer.newShader (r : Renderer) : Nat × Renderer :=
  (r.nextHandle,
   { r with nextHandle := r.nextHandle + 1, shaders := r.nextHandle :: r.shaders })

/-- Modelled from the spec: `RendererContext::destroy_shader`. -/
def Renderer.destroyShader (r : Renderer) (h : Nat) : Renderer :=
  { r with shaders := removeNat h r.shaders }

/-- Modelled from the spec: `RendererContext::new_compute_pipeline`; the arena
records which shader the pipeline was built from. -/
def Renderer.newComputePipeline (r : Renderer) (shader : Nat) : Nat × Renderer :=
  (r.nextHandle,
   { r with nextHandle := r.nextHandle + 1,
            computePipelines := (r.nextHandle, shader) :: r.computePipelines })

/-- Modelled from the spec: `RendererContext::destroy_compute_pipeline`. -/
def Renderer.destroyComputePipeline (r : Renderer) (h : Nat) : Renderer :=
  { r with computePipelines := removeKey h r.computePipelines }

/-- Modelled from the spec: `RendererContext::new_render_pipeline`. -/
def Renderer.newRenderPipeline (r : Renderer) (shader : Nat) : Nat × Renderer :=
  (r.nextHandle,
   { r with nextHandle := r.nextHandle + 1,
            renderPipelines := (r.nextHandle, shader) :: r.renderPipelines })

/-- Modelled from the spec: `RendererContext::destroy_render_pipeline`. -/
def Renderer.destroyRenderPipeline (r : Renderer) (h : Nat) : Renderer :=
  { r with renderPipelines := removeKey h r.renderPipelines }

/-- Modelled from the spec: `new_compute_bind_group` / `new_render_bind_group`
record the target pipeline and the bindings under a fresh handle. -/
def Renderer.newBindGroup (r : Renderer) (pl : Nat) (bs : List Binding) :
    Nat × Renderer :=
  (r.nextHandle,
   { r with nextHandle := r.nextHandle + 1,
            bindGroups := (r.nextHandle, ⟨pl, bs⟩) :: r.bindGroups })

/-- Modelled from the spec: `RendererContext::destroy_bind_group`. -/
def Renderer.destroyBindGroup (r : Renderer) (h : Nat) : Renderer :=
  { r with bindGroups := removeKey h r.bindGroups }

/-- Modelled from the spec: `RendererContext::new_texture`. -/
def Renderer.newTexture (r : Renderer) (d : TextureDesc) : Nat × Renderer :=
  (r.nextHandle,
   { r with nextHandle := r.nextHandle + 1,
            textures := (r.nextHandle, d) :: r.textures })

/-- Modelled from the spec (§4.5): `RendererContext::update_texture` destroys
and recreates the texture stored at the handle with the new descriptor. -/
def Renderer.updateTexture (r : Renderer) (h : Nat) (d : TextureDesc) : Renderer :=
  { r with textures := replaceAssoc h d r.textures }

/-- Modelled from the spec: `RendererContext::resize` resizes the surface. -/
def Renderer.resizeSurface (r : Renderer) (res : Resolution) : Renderer :=
  { r with surface := res }

/-- Modelled from the spec: fresh-handle allocation for collaborator-owned
GPU objects (camera/globals buffers, the voxel world's texture) whose
descriptors this core never inspects. -/
def Renderer.freshHandle (r : Renderer) : Nat × Renderer :=
  (r.nextHandle, { r with nextHandle := r.nextHandle + 1 })

/-- Modelled from the spec (§6): the Global Parameters collaborator
(`globals.rs`, not under `src/`): a size, a stable GPU buffer handle, and the
size value last pushed to that buffer.  (`game.rs` stores the size as an
`f32` pair converted from `u32` window dimensions; the conversion is exact for
all realistic resolutions, so sizes are modelled as naturals.) -/
structure Globals where
  size : Nat × Nat
  buffer : Nat
  bufferContent : Nat × Nat
  deriving DecidableEq, Repr

/-- Modelled from the spec (§6): `Globals::set_size`. -/
def Globals.setSize (g : Globals) (s : Nat × Nat) : Globals :=
  { g with size := s }

/-- Modelled from the spec (§6): `Globals::update_buffer` pushes the current
size to the GPU buffer. -/
def Globals.updateBuffer (g : Globals) : Globals :=
  { g with bufferContent := g.size }

/-- Modelled from the spec (§6): the Camera collaborator (`camera.rs`, not
under `src/`): an abstract CPU-side state version, a stable buffer handle, and
the state version last pushed to the buffer. -/
structure Camera where
  state : Nat
  buffer : Nat
  bufferContent : Nat
  deriving DecidableEq, Repr

/-- Modelled from the spec (§6): `Camera::update_buffer`. -/
def Camera.updateBuffer (c : Camera) : Camera :=
  { c with bufferContent := c.state }

/-- Modelled from the spec (§6): the Voxel World collaborator
(`voxel_world.rs`, not under `src/`): an abstract CPU-side data version, its
GPU texture handle, and the data version last pushed to that texture. -/
structure VoxelWorld where
  data : Nat
  texture : Nat
  textureContent : Nat
  deriving DecidableEq, Repr

/-- Modelled from the spec (§6): `VoxelWorld::update_texture`. -/
def VoxelWorld.updateTexture (w : VoxelWorld) : VoxelWorld :=
  { w with textureContent := w.data }

/-- The watched shader source files: for each path, whether the WGSL source it
currently holds compiles.  This is the composition of
`std::fs::read_to_string` with `RendererContext::new_shader`'s success. -/
abbrev FileSys := String → Bool

/-- `notify::EventKind`, restricted to the distinction `game.rs` makes:
`Modify` versus everything else. -/
inductive EventKind
  | access
  | create
  | modify
  | remove
  | other
  deriving DecidableEq, Repr

/-- One path carried by a watcher event, after the two fallible steps
`hot_reload` applies to it: whether `make_relative_path` succeeded, and the
`file_stem` of the resulting relative path. -/
structure EventPath where
  relativeOk : Bool
  stem : Option String
  deriving DecidableEq, Repr

/-- A debounced `file_watcher` event: its kind and its list of paths. -/
structure WatchEvent where
  kind : EventKind
  paths : List EventPath
  deriving DecidableEq, Repr

/-- The `Game` struct of `game.rs` (fields `inputs` and `time_step` are
omitted: no operation under study reads them). -/
structure Game where
  world : VoxelWorld
  camera : Camera
  globals : Globals
  output_texture : Nat
  compute_shader : Option Nat
  compute_pipeline : Option Nat
  compute_bind_group : Option Nat
  render_shader : Option Nat
  render_pipeline : Option Nat
  render_bind_group : Option Nat
  deriving DecidableEq, Repr

/-- The texture descriptor literal written in `Game::new` (800×600,
`Rgba8Uint`, `STORAGE_BINDING | TEXTURE_BINDING | COPY_SRC`). -/
def newTextureDesc : TextureDesc :=
  { width := 800, height := 600, format := TexFormat.rgba8Uint,
    usage := { storageBinding := true, textureBinding := true, copySrc := true } }

/-- The texture descriptor literal written in `Game::resize` (the new
dimensions, `Rgba8Uint`, `STORAGE_BINDING | TEXTURE_BINDING | COPY_SRC`). -/
def resizeTextureDesc (width height : Nat) : TextureDesc :=
  { width := width, height := height, format := TexFormat.rgba8Uint,
    usage := { storageBinding := true, textureBinding := true, copySrc := true } }

/-- `Game::new`: the collaborators allocate their GPU objects, then the
intermediate output texture is created at 800×600; every shader, pipeline and
bind-group slot starts out `None`. -/
def Game.new (r : Renderer) : Renderer × Game :=
  let (worldTex, r1) := r.freshHandle
  let (camBuf, r2) := r1.freshHandle
  let (globBuf, r3) := r2.freshHandle
  let (outTex, r4) := r3.newTexture newTextureDesc
  (r4,
   { world := { data := 0, texture := worldTex, textureContent := 0 },
     camera := { state := 0, buffer := camBuf, bufferContent := 0 },
     globals := { size := (800, 600), buffer := globBuf, bufferContent := (800, 600) },
     output_texture := outTex,
     compute_shader := none, compute_pipeline := none, compute_bind_group := none,
     render_shader := none, render_pipeline := none, render_bind_group := none })

/-- `Game::create_shader`: read the file, try to compile it; on success return
the new handle, on failure print the compile error and return `None`. -/
def Game.create_shader (fs : FileSys) (r : Renderer) (path : String) :
    Option Nat × Renderer × List GpuOp :=
  if fs path then
    let (h, r1) := r.newShader
    (some h, r1, [GpuOp.createShader h])
  else
    (none, r, [GpuOp.reportCompileError])

/-- `Game::create_render_pipeline` (the fixed binding layout it passes is not
inspected by any claim and is kept implicit in the arena record). -/
def Game.create_render_pipeline (r : Renderer) (shader : Nat) :
    Nat × Renderer × List GpuOp :=
  let (h, r1) := r.newRenderPipeline shader
  (h, r1, [GpuOp.createRenderPipeline h])

/-- `Game::create_compute_pipeline`. -/
def Game.create_compute_pipeline (r : Renderer) (shader : Nat) :
    Nat × Renderer × List GpuOp :=
  let (h, r1) := r.newComputePipeline shader
  (h, r1, [GpuOp.createComputePipeline h])

/-- The `file_stem == "render"` branch of `Game::hot_reload`: destroy the old
shader if present, then the old pipeline if present, recompile
`src/shaders/render.wgsl`, and on success rebuild the pipeline; on failure the
shader slot is set to `None` and the pipeline slot is left as it was. -/
def Game.reloadRender (fs : FileSys) (r : Renderer) (g : Game) :
    Renderer × Game × List GpuOp :=
  let (r1, ops1) :=
    match g.render_shader with
    | some sh => (r.destroyShader sh, [GpuOp.destroyShader sh])
    | none => (r, [])
  let (r2, ops2) :=
    match g.render_pipeline with
    | some pl => (r1.destroyRenderPipeline pl, [GpuOp.destroyRenderPipeline pl])
    | none => (r1, [])
  match Game.create_shader fs r2 "src/shaders/render.wgsl" with
  | (some sh, r3, ops3) =>
    let (pl, r4, ops4) := Game.create_render_pipeline r3 sh
    (r4, { g with render_shader := some sh, render_pipeline := some pl },
     ops1 ++ ops2 ++ ops3 ++ ops4)
  | (none, r3, ops3) =>
    (r3, { g with render_shader := none }, ops1 ++ ops2 ++ ops3)

/-- The `file_stem == "compute"` branch of `Game::hot_reload`. -/
def Game.reloadCompute (fs : FileSys) (r : Renderer) (g : Game) :
    Renderer × Game × List GpuOp :=
  let (r1, ops1) :=
    match g.compute_shader with
    | some sh => (r.destroyShader sh, [GpuOp.destroyShader sh])
    | none => (r, [])
  let (r2, ops2) :=
    match g.compute_pipeline with
    | some pl => (r1.destroyComputePipeline pl, [GpuOp.destroyComputePipeline pl])
    | none => (r1, [])
  match Game.create_shader fs r2 "src/shaders/compute.wgsl" with
  | (some sh, r3, ops3) =>
    let (pl, r4, ops4) := Game.create_compute_pipeline r3 sh
    (r4, { g with compute_shader := some sh, compute_pipeline := some pl },
     ops1 ++ ops2 ++ ops3 ++ ops4)
  | (none, r3, ops3) =>
    (r3, { g with compute_shader := none }, ops1 ++ ops2 ++ ops3)

/-- Processing of one path of a watcher event inside `Game::hot_reload`:
paths whose `make_relative_path` fails or whose relative path has no file stem
are dropped; stems other than `"render"` and `"compute"` do nothing. -/
def Game.reloadPath (fs : FileSys) (r : Renderer) (g : Game) (p : EventPath) :
    Renderer × Game × List GpuOp :=
  if p.relativeOk then
    match p.stem with
    | some s =>
      if s = "render" then Game.reloadRender fs r g
      else if s = "compute" then Game.reloadCompute fs r g
      else (r, g, [])
    | none => (r, g, [])
  else (r, g, [])

/-- The `for path in watcher_event.paths` loop of `Game::hot_reload`. -/
def Game.reloadPaths (fs : FileSys) (r : Renderer) (g : Game) :
    List EventPath → Renderer × Game × List GpuOp
  | [] => (r, g, [])
  | p :: ps =>
    let (r1, g1, ops1) := Game.reloadPath fs r g p
    let (r2, g2, ops2) := Game.reloadPaths fs r1 g1 ps
    (r2, g2, ops1 ++ ops2)

/-- `Game::hot_reload`: poll the watcher (the pending event, if any, is passed
explicitly); only `Modify` events are processed, path by path. -/
def Game.hot_reload (fs : FileSys) (r : Renderer) (g : Game)
    (ev : Option WatchEvent) : Renderer × Game × List GpuOp :=
  match ev with
  | some e =>
    if e.kind = EventKind.modify then Game.reloadPaths fs r g e.paths
    else (r, g, [])
  | none => (r, g, [])

/-- The binding list `prepare_rendering` passes to `new_compute_bind_group`:
the voxel world's texture, the output texture, the globals buffer and the
camera buffer. -/
def computeBindingsOf (g : Game) : List Binding :=
  [⟨0, BindingResource.texture g.world.texture⟩,
   ⟨1, BindingResource.texture g.output_texture⟩,
   ⟨2, BindingResource.buffer g.globals.buffer⟩,
   ⟨3, BindingResource.buffer g.camera.buffer⟩]

/-- The binding list `prepare_rendering` passes to `new_render_bind_group`:
the output texture and the globals buffer. -/
def renderBindingsOf (g : Game) : List Binding :=
  [⟨0, BindingResource.texture g.output_texture⟩,
   ⟨1, BindingResource.buffer g.globals.buffer⟩]

/-- `Game::prepare_rendering` (trait `System`): update the camera buffer and
the voxel-world texture, then destroy (if present) and recreate the compute
bind group against `compute_pipeline.unwrap()`, then the render bind group
against `render_pipeline.unwrap()`.  An `unwrap` of a `None` slot is a panic,
modelled by the result `none`. -/
def Game.prepare_rendering (r : Renderer) (g : Game) :
    Option (Renderer × Game × List GpuOp) :=
  let camera1 := g.camera.updateBuffer
  let world1 := g.world.updateTexture
  let (r1, ops1) :=
    match g.compute_bind_group with
    | some bg => (r.destroyBindGroup bg, [GpuOp.destroyBindGroup bg])
    | none => (r, [])
  match g.compute_pipeline with
  | none => none
  | some cpl =>
    let (cbg, r2) := r1.newBindGroup cpl (computeBindingsOf g)
    let (r3, ops2) :=
      match g.render_bind_group with
      | some bg => (r2.destroyBindGroup bg, [GpuOp.destroyBindGroup bg])
      | none => (r2, [])
    match g.render_pipeline with
    | none => none
    | some rpl =>
      let (rbg, r4) := r3.newBindGroup rpl (renderBindingsOf g)
      some (r4,
        { g with camera := camera1, world := world1,
                 compute_bind_group := some cbg, render_bind_group := some rbg },
        [GpuOp.updateCameraBuffer, GpuOp.updateWorldTexture] ++ ops1
          ++ [GpuOp.createBindGroup cbg] ++ ops2 ++ [GpuOp.createBindGroup rbg])

/-- `Game::render` (trait `System`): one compute pass dispatching
`(size.x, size.y, 1)` workgroups where `size = globals.get_size()`, then one
render pass drawing vertex range `0..3`, instance range `0..1`.  The four
`unwrap`s on the pipeline and bind-group slots are modelled by `none`. -/
def Game.render (g : Game) : Option (List GpuOp) :=
  match g.compute_pipeline, g.compute_bind_group with
  | some _, some _ =>
    match g.render_pipeline, g.render_bind_group with
    | some _, some _ =>
      some [GpuOp.dispatch g.globals.size.1 g.globals.size.2 1,
            GpuOp.draw 0 3 0 1]
    | _, _ => none
  | _, _ => none

/-- `Game::resize` (trait `System`): resize the surface, recreate the output
texture at the new dimensions, set the globals size and push it. -/
def Game.resize (r : Renderer) (g : Game) (width height : Nat) :
    Renderer × Game × List GpuOp :=
  let r1 := r.resizeSurface ⟨width, height⟩
  let r2 := r1.updateTexture g.output_texture (resizeTextureDesc width height)
  let globals1 := (g.globals.setSize (width, height)).updateBuffer
  (r2, { g with globals := globals1 },
   [GpuOp.resizeSurface ⟨width, height⟩,
    GpuOp.updateTexture g.output_texture (resizeTextureDesc width height),
    GpuOp.updateGlobalsBuffer])

/-- `a` occurs strictly before `b` in the operation trace `l`. -/
def precedesIn (a b : GpuOp) : List GpuOp → Bool
  | [] => false
  | x :: xs => (decide (x = a) && decide (b ∈ xs)) || precedesIn a b xs

/-- Ceiling division, as used by the spec's dispatch-sizing description. -/
def ceilDiv (a b : Nat) : Nat := (a + b - 1) / b

/-- Modelled from the spec: the workgroup dimensions declared by the compute
shader (`src/shaders/compute.wgsl` is not under `src/`).  The spec requires
the dispatch grid to equal the output resolution ceiling-divided by these
dimensions and expects an 800×600 output to be covered by a dispatch sized to
800×600, while `Game::render` passes the resolution to `dispatch` unscaled;
this is consistent exactly with declared workgroup dimensions `(1, 1, 1)`. -/
def computeWorkgroupDims : Nat × Nat × Nat := (1, 1, 1)

/-- Recognizer for dispatch trace entries. -/
def isDispatchOp : GpuOp → Bool
  | GpuOp.dispatch _ _ _ => true
  | _ => false

/-- Recognizer for draw trace entries. -/
def isDrawOp : GpuOp → Bool
  | GpuOp.draw _ _ _ _ => true
  | _ => false

/-- The shader slot of the stage named by a file stem. -/
def Game.stageShader (g : Game) (st : String) : Option Nat :=
  if st = "render" then g.render_shader else g.compute_shader

/-- The pipeline slot of the stage named by a file stem. -/
def Game.stagePipeline (g : Game) (st : String) : Option Nat :=
  if st = "render" then g.render_pipeline else g.compute_pipeline

/-- The destroy-pipeline trace entry of the stage named by a file stem. -/
def destroyPipelineOp (st : String) (h : Nat) : GpuOp :=
  if st = "render" then GpuOp.destroyRenderPipeline h
  else GpuOp.destroyComputePipeline h

/-- The shader recorded in the arena for a pipeline of the given stage. -/
def stagePipelineShader (r : Renderer) (st : String) (pl : Nat) : Option Nat :=
  if st = "render" then lookupAssoc pl r.renderPipelines
  else lookupAssoc pl r.computePipelines

/-- The source file `hot_reload` recompiles for the stage named by a stem. -/
def stagePath (st : String) : String :=
  if st = "render" then "src/shaders/render.wgsl" else "src/shaders/compute.wgsl"

/-- The resource bound at slot `n` of a bind group record. -/
def BindGroupRec.bindingAt (rec : BindGroupRec) (n : Nat) : Option BindingResource :=
  (rec.bindings.find? (fun b => b.binding == n)).map (fun b => b.resource)

/-- A filesystem on which every watched shader source compiles. -/
def fsOk : FileSys := fun _ => true

/-- A filesystem on which every watched shader source has a syntax error. -/
def fsBad : FileSys := fun _ => false

/-- A concrete steady-state arena: shaders 1 and 3 live, render pipeline 2
built from shader 1, compute pipeline 4 built from shader 3, last frame's bind
groups 30 and 31 live, the output texture 5 live at its creation descriptor. -/
def sampleRenderer : Renderer :=
  { nextHandle := 40, shaders := [1, 3],
    computePipelines := [(4, 3)], renderPipelines := [(2, 1)],
    bindGroups := [(30, ⟨4, []⟩), (31, ⟨2, []⟩)],
    textures := [(5, newTextureDesc)],
    surface := ⟨800, 600⟩ }

/-- The matching concrete steady-state `Game`: both stages built, both bind
groups present from the previous frame. -/
def sampleGame : Game :=
  { world := { data := 7, texture := 22, textureContent := 6 },
    camera := { state := 9, buffer := 21, bufferContent := 8 },
    globals := { size := (800, 600), buffer := 20, bufferContent := (800, 600) },
    output_texture := 5,
    compute_shader := some 3, compute_pipeline := some 4,
    compute_bind_group := some 30,
    render_shader := some 1, render_pipeline := some 2,
    render_bind_group := some 31 }

lemma hot_reload_single (fs : FileSys) (r : Renderer) (g : Game) (p : EventPath) :
    Game.hot_reload fs r g (some ⟨EventKind.modify, [p]⟩) =
      ((Game.reloadPath fs r g p).1, (Game.reloadPath fs r g p).2.1,
       (Game.reloadPath fs r g p).2.2 ++ []) := rfl

lemma reloadPath_render (fs : FileSys) (r : Renderer) (g : Game) :
    Game.reloadPath fs r g ⟨true, some "render"⟩ = Game.reloadRender fs r g := rfl

lemma reloadPath_compute (fs : FileSys) (r : Renderer) (g : Game) :
    Game.reloadPath fs r g ⟨true, some "compute"⟩ = Game.reloadCompute fs r g := rfl

lemma reloadRender_order (fs : FileSys) (r : Renderer) (g : Game) (sh pl : Nat)
    (hsh : g.render_shader = some sh) (hpl : g.render_pipeline = some pl) :
    precedesIn (GpuOp.destroyShader sh) (GpuOp.destroyRenderPipeline pl)
      (Game.reloadRender fs r g).2.2 = true := by
  unfold Game.reloadRender
  rw [hsh, hpl]
  cases hfs : fs "src/shaders/render.wgsl" <;>
    simp [Game.create_shader, hfs, Game.create_render_pipeline, precedesIn]

lemma reloadCompute_order (fs : FileSys) (r : Renderer) (g : Game) (sh pl : Nat)
    (hsh : g.compute_shader = some sh) (hpl : g.compute_pipeline = some pl) :
    precedesIn (GpuOp.destroyShader sh) (GpuOp.destroyComputePipeline pl)
      (Game.reloadCompute fs r g).2.2 = true := by
  unfold Game.reloadCompute
  rw [hsh, hpl]
  cases hfs : fs "src/shaders/compute.wgsl" <;>
    simp [Game.create_shader, hfs, Game.create_compute_pipeline, precedesIn]

lemma reloadRender_success (fs : FileSys) (r : Renderer) (g : Game)
    (hfs : fs "src/shaders/render.wgsl" = true) :
    ∃ sh2 pl2,
      (Game.reloadRender fs r g).2.1.render_shader = some sh2
      ∧ (Game.reloadRender fs r g).2.1.render_pipeline = some pl2
      ∧ lookupAssoc pl2 (Game.reloadRender fs r g).1.renderPipelines = some sh2
      ∧ sh2 ∈ (Game.reloadRender fs r g).1.shaders := by
  unfold Game.reloadRender
  cases hrs : g.render_shader <;> cases hrp : g.render_pipeline <;>
    simp [Game.create_shader, hfs, Game.create_render_pipeline,
      Renderer.newShader, Renderer.newRenderPipeline, Renderer.destroyShader,
      Renderer.destroyRenderPipeline, lookupAssoc]

lemma reloadCompute_success (fs : FileSys) (r : Renderer) (g : Game)
    (hfs : fs "src/shaders/compute.wgsl" = true) :
    ∃ sh2 pl2,
      (Game.reloadCompute fs r g).2.1.compute_shader = some sh2
      ∧ (Game.reloadCompute fs r g).2.1.compute_pipeline = some pl2
      ∧ lookupAssoc pl2 (Game.reloadCompute fs r g).1.computePipelines = some sh2
      ∧ sh2 ∈ (Game.reloadCompute fs r g).1.shaders := by
  unfold Game.reloadCompute
  cases hrs : g.compute_shader <;> cases hrp : g.compute_pipeline <;>
    simp [Game.create_shader, hfs, Game.create_compute_pipeline,
      Renderer.newShader, Renderer.newComputePipeline, Renderer.destroyShader,
      Renderer.destroyComputePipeline, lookupAssoc]

/-- Claim C1, counterexample.  On the steady-state arena, a `Modify` event for
the `render` stem with both an old shader (handle 1) and an old dependent
pipeline (handle 2) present makes `hot_reload` emit `destroyShader 1` *before*
`destroyRenderPipeline 2`: the pipeline is never destroyed before the shader,
refuting the claimed destruction order. -/
theorem hot_reload_destroy_order_cex :
    sampleGame.render_shader = some 1
    ∧ sampleGame.render_pipeline = some 2
    ∧ GpuOp.destroyShader 1 ∈
        (Game.hot_reload fsOk sampleRenderer sampleGame
          (some ⟨EventKind.modify, [⟨true, some "render"⟩]⟩)).2.2
    ∧ GpuOp.destroyRenderPipeline 2 ∈
        (Game.hot_reload fsOk sampleRenderer sampleGame
          (some ⟨EventKind.modify, [⟨true, some "render"⟩]⟩)).2.2
    ∧ precedesIn (GpuOp.destroyRenderPipeline 2) (GpuOp.destroyShader 1)
        (Game.hot_reload fsOk sampleRenderer sampleGame
          (some ⟨EventKind.modify, [⟨true, some "render"⟩]⟩)).2.2 = false := by
  decide

/-- Claim C1, amended.  For every processed hot-reload event for shader
identity `"render"` or `"compute"` in which an old shader and an old dependent
pipeline both exist, `hot_reload` destroys the existing shader *before*
destroying the existing dependent pipeline (the reverse of the claimed order),
and whenever the recompilation succeeds, the stage's active pipeline slot
afterwards references the newly compiled shader, which is live in the arena. -/
theorem hot_reload_destroy_order_amended
    (fs : FileSys) (r : Renderer) (g : Game) (st : String) (sh pl : Nat)
    (hst : st = "render" ∨ st = "compute")
    (hsh : Game.stageShader g st = some sh)
    (hpl : Game.stagePipeline g st = some pl) :
    precedesIn (GpuOp.destroyShader sh) (destroyPipelineOp st pl)
      (Game.hot_reload fs r g
        (some ⟨EventKind.modify, [⟨true, some st⟩]⟩)).2.2 = true
    ∧ (fs (stagePath st) = true →
        ∃ sh2 pl2,
          Game.stageShader
            (Game.hot_reload fs r g
              (some ⟨EventKind.modify, [⟨true, some st⟩]⟩)).2.1 st = some sh2
          ∧ Game.stagePipeline
              (Game.hot_reload fs r g
                (some ⟨EventKind.modify, [⟨true, some st⟩]⟩)).2.1 st = some pl2
          ∧ stagePipelineShader
              (Game.hot_reload fs r g
                (some ⟨EventKind.modify, [⟨true, some st⟩]⟩)).1 st pl2 = some sh2
          ∧ sh2 ∈ (Game.hot_reload fs r g
                (some ⟨EventKind.modify, [⟨true, some st⟩]⟩)).1.shaders) := by
  rcases hst with h | h <;> subst h
  · simp only [Game.stageShader, if_pos rfl] at hsh
    simp only [Game.stagePipeline, if_pos rfl] at hpl
    rw [hot_reload_single, reloadPath_render]
    constructor
    · simp only [destroyPipelineOp, if_pos rfl, List.append_nil]
      exact reloadRender_order fs r g sh pl hsh hpl
    · intro hfs
      simp only [Game.stageShader, Game.stagePipeline, stagePipelineShader,
        if_pos rfl]
      exact reloadRender_success fs r g hfs
  · simp [Game.stageShader] at hsh
    simp [Game.stagePipeline] at hpl
    rw [hot_reload_single, reloadPath_compute]
    constructor
    · simp only [destroyPipelineOp, List.append_nil]
      rw [if_neg (by decide)]
      exact reloadCompute_order fs r g sh pl hsh hpl
    · intro hfs
      simp only [Game.stageShader, Game.stagePipeline, stagePipelineShader,
        if_neg (show ¬("compute" = "render") by decide)]
      exact reloadCompute_success fs r g hfs

theorem hot_reload_destroy_order_witness :
    precedesIn (GpuOp.destroyShader 1) (destroyPipelineOp "render" 2)
      (Game.hot_reload fsOk sampleRenderer sampleGame
        (some ⟨EventKind.modify, [⟨true, some "render"⟩]⟩)).2.2 = true
    ∧ (fsOk (stagePath "render") = true →
        ∃ sh2 pl2,
          Game.stageShader
            (Game.hot_reload fsOk sampleRenderer sampleGame
              (some ⟨EventKind.modify, [⟨true, some "render"⟩]⟩)).2.1 "render"
            = some sh2
          ∧ Game.stagePipeline
              (Game.hot_reload fsOk sampleRenderer sampleGame
                (some ⟨EventKind.modify, [⟨true, some "render"⟩]⟩)).2.1 "render"
              = some pl2
          ∧ stagePipelineShader
              (Game.hot_reload fsOk sampleRenderer sampleGame
                (some ⟨EventKind.modify, [⟨true, some "render"⟩]⟩)).1 "render" pl2
              = some sh2
          ∧ sh2 ∈ (Game.hot_reload fsOk sampleRenderer sampleGame
                (some ⟨EventKind.modify, [⟨true, some "render"⟩]⟩)).1.shaders) :=
  hot_reload_destroy_order_amended fsOk sampleRenderer sampleGame "render" 1 2
    (Or.inl rfl) (by decide) (by decide)

/-- Claim C2, evaluation at the failing input.  A `Modify` event for the
`compute` stem whose recompilation fails (the source has a syntax error), on a
state where the old compute shader 3 and old compute pipeline 4 both exist:
the shader slot is emptied, the error is reported, and the render stage is
untouched — but, contrary to the claim (and the spec's stated failure
policy), the compute *pipeline slot is not emptied*: it retains handle 4,
whose pipeline has already been destroyed (it is gone from the arena).  The
next frame's `prepare_rendering` would pass this destroyed handle to
`new_compute_bind_group`, a fatal resource-manager contract violation, so the
code contradicts the intended recovery behaviour. -/
theorem hot_reload_failed_compile_eval :
    (Game.hot_reload fsBad sampleRenderer sampleGame
      (some ⟨EventKind.modify, [⟨true, some "compute"⟩]⟩)).2.1.compute_shader = none
    ∧ (Game.hot_reload fsBad sampleRenderer sampleGame
        (some ⟨EventKind.modify, [⟨true, some "compute"⟩]⟩)).2.1.compute_pipeline
        = some 4
    ∧ lookupAssoc 4 (Game.hot_reload fsBad sampleRenderer sampleGame
        (some ⟨EventKind.modify, [⟨true, some "compute"⟩]⟩)).1.computePipelines
        = none
    ∧ GpuOp.reportCompileError ∈
        (Game.hot_reload fsBad sampleRenderer sampleGame
          (some ⟨EventKind.modify, [⟨true, some "compute"⟩]⟩)).2.2
    ∧ (Game.hot_reload fsBad sampleRenderer sampleGame
        (some ⟨EventKind.modify, [⟨true, some "compute"⟩]⟩)).2.1.render_shader
        = sampleGame.render_shader
    ∧ (Game.hot_reload fsBad sampleRenderer sampleGame
        (some ⟨EventKind.modify, [⟨true, some "compute"⟩]⟩)).2.1.render_pipeline
        = sampleGame.render_pipeline
    ∧ (Game.hot_reload fsBad sampleRenderer sampleGame
        (some ⟨EventKind.modify, [⟨true, some "compute"⟩]⟩)).2.1.render_bind_group
        = sampleGame.render_bind_group := by
  decide

/-- Claim C3, counterexample.  `prepare_rendering` and `render` call `unwrap`
on the pipeline slots (modelled by returning `none`): on a state whose compute
pipeline slot is `None`, both operations panic instead of skipping the stage,
refuting the claimed skip-rather-than-panic behaviour. -/
theorem pipeline_absent_skip_cex :
    ({ sampleGame with compute_pipeline := none } : Game).compute_pipeline = none
    ∧ Game.prepare_rendering sampleRenderer
        { sampleGame with compute_pipeline := none } = none
    ∧ Game.render { sampleGame with compute_pipeline := none } = none := by
  decide

/-- Claim C3, amended.  If the current compute pipeline or the current render
pipeline is absent, the frame-sequencing operations do not skip that stage:
`prepare_rendering` panics (`unwrap` on `None`, modelled by `none`) exactly
when either pipeline slot is empty, and `render` panics exactly when any of
the four pipeline/bind-group slots it unwraps is empty. -/
theorem pipeline_absent_panic (r : Renderer) (g : Game) :
    (Game.prepare_rendering r g = none ↔
      g.compute_pipeline = none ∨ g.render_pipeline = none)
    ∧ (Game.render g = none ↔
      g.compute_pipeline = none ∨ g.compute_bind_group = none
        ∨ g.render_pipeline = none ∨ g.render_bind_group = none) := by
  constructor
  · cases hc : g.compute_pipeline <;> cases hr : g.render_pipeline <;>
      cases hcb : g.compute_bind_group <;> cases hrb : g.render_bind_group <;>
      simp [Game.prepare_rendering, hc, hr, hcb, hrb]
  · cases hc : g.compute_pipeline <;> cases hcb : g.compute_bind_group <;>
      cases hr : g.render_pipeline <;> cases hrb : g.render_bind_group <;>
      simp [Game.render, hc, hcb, hr, hrb]

lemma lookupAssoc_removeKey {β : Type} (k rk : Nat) (l : List (Nat × β))
    (h : k ≠ rk) : lookupAssoc k (removeKey rk l) = lookupAssoc k l := by
  induction l with
  | nil => rfl
  | cons p t ih =>
    obtain ⟨a, b⟩ := p
    by_cases ha : a = rk
    · subst ha
      have hak : a ≠ k := fun hh => h hh.symm
      simp only [removeKey, if_pos rfl, lookupAssoc, if_neg hak]
      exact ih
    · simp only [removeKey, if_neg ha, lookupAssoc]
      by_cases hk : a = k <;> simp [hk, ih]

lemma lookupAssoc_replaceAssoc {β : Type} (k : Nat) (v d : β)
    (l : List (Nat × β)) (h : lookupAssoc k l = some d) :
    lookupAssoc k (replaceAssoc k v l) = some v := by
  induction l with
  | nil => simp [lookupAssoc] at h
  | cons p t ih =>
    obtain ⟨a, b⟩ := p
    by_cases ha : a = k
    · subst ha
      simp [replaceAssoc, lookupAssoc]
    · simp only [lookupAssoc, if_neg ha] at h
      simp only [replaceAssoc, if_neg ha, lookupAssoc, if_neg ha]
      exact ih h

lemma replaceAssoc_idem {β : Type} (k : Nat) (v : β) (l : List (Nat × β)) :
    replaceAssoc k v (replaceAssoc k v l) = replaceAssoc k v l := by
  induction l with
  | nil => rfl
  | cons p t ih =>
    obtain ⟨a, b⟩ := p
    by_cases ha : a = k <;>
      simp only [replaceAssoc, if_pos, if_neg, ha, ite_true, ite_false] <;>
      simp [replaceAssoc, ha, ih]

/-- The bind-group table produced by one `prepare_rendering` run: destroy the
old compute bind group, create the fresh one, destroy the old render bind
group, create the fresh one — in the order the code issues the calls. -/
def prepBindGroups (r : Renderer) (g : Game) (cpl rpl : Nat) :
    List (Nat × BindGroupRec) :=
  let l1 :=
    match g.compute_bind_group with
    | some bg => removeKey bg r.bindGroups
    | none => r.bindGroups
  let l2 := (r.nextHandle, (⟨cpl, computeBindingsOf g⟩ : BindGroupRec)) :: l1
  let l3 :=
    match g.render_bind_group with
    | some bg => removeKey bg l2
    | none => l2
  (r.nextHandle + 1, (⟨rpl, renderBindingsOf g⟩ : BindGroupRec)) :: l3

/-- The operation trace of one `prepare_rendering` run. -/
def prepOps (r : Renderer) (g : Game) : List GpuOp :=
  [GpuOp.updateCameraBuffer, GpuOp.updateWorldTexture]
    ++ (match g.compute_bind_group with
        | some bg => [GpuOp.destroyBindGroup bg]
        | none => [])
    ++ [GpuOp.createBindGroup r.nextHandle]
    ++ (match g.render_bind_group with
        | some bg => [GpuOp.destroyBindGroup bg]
        | none => [])
    ++ [GpuOp.createBindGroup (r.nextHandle + 1)]

lemma prepare_rendering_eq (r : Renderer) (g : Game) (cpl rpl : Nat)
    (hc : g.compute_pipeline = some cpl) (hr : g.render_pipeline = some rpl) :
    Game.prepare_rendering r g = some
      ({ r with nextHandle := r.nextHandle + 2,
                bindGroups := prepBindGroups r g cpl rpl },
       { g with camera := g.camera.updateBuffer,
                world := g.world.updateTexture,
                compute_bind_group := some r.nextHandle,
                render_bind_group := some (r.nextHandle + 1) },
       prepOps r g) := by
  cases hcb : g.compute_bind_group <;> cases hrb : g.render_bind_group <;>
    simp [Game.prepare_rendering, prepBindGroups, prepOps, hc, hr, hcb, hrb,
      Renderer.newBindGroup, Renderer.destroyBindGroup]

/-- Claim C4.  Whenever `render` records a frame, the compute pass issues
exactly one dispatch, whose workgroup grid is the output resolution
ceiling-divided by the compute shader's declared workgroup dimensions
(`(1,1,1)`, see `computeWorkgroupDims`); with an 800×600 output this is one
dispatch of `(800, 600, 1)`. -/
theorem render_dispatch_covers_resolution (g : Game) (cpl cbg rpl rbg : Nat)
    (h1 : g.compute_pipeline = some cpl) (h2 : g.compute_bind_group = some cbg)
    (h3 : g.render_pipeline = some rpl) (h4 : g.render_bind_group = some rbg) :
    ∃ ops, Game.render g = some ops
      ∧ ops.filter isDispatchOp =
          [GpuOp.dispatch (ceilDiv g.globals.size.1 computeWorkgroupDims.1)
            (ceilDiv g.globals.size.2 computeWorkgroupDims.2.1) 1]
      ∧ (g.globals.size = (800, 600) →
          ops.filter isDispatchOp = [GpuOp.dispatch 800 600 1]) := by
  refine ⟨[GpuOp.dispatch g.globals.size.1 g.globals.size.2 1,
    GpuOp.draw 0 3 0 1], ?_, ?_, ?_⟩
  · simp [Game.render, h1, h2, h3, h4]
  · simp [isDispatchOp, ceilDiv, computeWorkgroupDims]
  · intro hs
    simp [isDispatchOp, hs]

theorem render_dispatch_covers_resolution_witness :
    ∃ ops, Game.render sampleGame = some ops
      ∧ ops.filter isDispatchOp =
          [GpuOp.dispatch (ceilDiv sampleGame.globals.size.1 computeWorkgroupDims.1)
            (ceilDiv sampleGame.globals.size.2 computeWorkgroupDims.2.1) 1]
      ∧ (sampleGame.globals.size = (800, 600) →
          ops.filter isDispatchOp = [GpuOp.dispatch 800 600 1]) :=
  render_dispatch_covers_resolution sampleGame 4 30 2 31 rfl rfl rfl rfl

/-- Claim C5.  Whenever `render` records a frame, the render pass issues
exactly one draw call, of vertex range `0..3` and instance range `0..1`. -/
theorem render_single_draw_three_vertices (g : Game) (cpl cbg rpl rbg : Nat)
    (h1 : g.compute_pipeline = some cpl) (h2 : g.compute_bind_group = some cbg)
    (h3 : g.render_pipeline = some rpl) (h4 : g.render_bind_group = some rbg) :
    ∃ ops, Game.render g = some ops
      ∧ ops.filter isDrawOp = [GpuOp.draw 0 3 0 1] := by
  refine ⟨[GpuOp.dispatch g.globals.size.1 g.globals.size.2 1,
    GpuOp.draw 0 3 0 1], ?_, ?_⟩
  · simp [Game.render, h1, h2, h3, h4]
  · simp [isDrawOp]

theorem render_single_draw_three_vertices_witness :
    ∃ ops, Game.render sampleGame = some ops
      ∧ ops.filter isDrawOp = [GpuOp.draw 0 3 0 1] :=
  render_single_draw_three_vertices sampleGame 4 30 2 31 rfl rfl rfl rfl

lemma prepBindGroups_lookup_cbg (r : Renderer) (g : Game) (cpl rpl : Nat)
    (hbg : ∀ bg, g.render_bind_group = some bg → bg ≠ r.nextHandle) :
    lookupAssoc r.nextHandle (prepBindGroups r g cpl rpl)
      = some ⟨cpl, computeBindingsOf g⟩ := by
  simp only [prepBindGroups]
  rw [lookupAssoc, if_neg (Nat.succ_ne_self r.nextHandle)]
  cases hrb : g.render_bind_group with
  | none => simp [lookupAssoc]
  | some bg =>
    rw [lookupAssoc_removeKey _ _ _ (Ne.symm (hbg bg hrb))]
    simp [lookupAssoc]

lemma prepBindGroups_lookup_rbg (r : Renderer) (g : Game) (cpl rpl : Nat) :
    lookupAssoc (r.nextHandle + 1) (prepBindGroups r g cpl rpl)
      = some ⟨rpl, renderBindingsOf g⟩ := by
  simp [prepBindGroups, lookupAssoc]

/-- Claim C6, counterexample.  On a state whose CPU-side globals size
(1024×768) differs from the value last pushed to the globals buffer (800×600),
`prepare_rendering` completes without pushing the globals buffer: afterwards
the buffer still holds the stale 800×600 value and no globals-buffer update
appears in the trace — refuting the claim that every Prepare phase pushes
updated global-parameter values. -/
theorem prepare_globals_push_cex :
    (Game.prepare_rendering sampleRenderer
        { sampleGame with globals := ⟨(1024, 768), 20, (800, 600)⟩ }).map
      (fun t => t.2.1.globals.size) = some (1024, 768)
    ∧ (Game.prepare_rendering sampleRenderer
        { sampleGame with globals := ⟨(1024, 768), 20, (800, 600)⟩ }).map
      (fun t => t.2.1.globals.bufferContent) = some (800, 600)
    ∧ (Game.prepare_rendering sampleRenderer
        { sampleGame with globals := ⟨(1024, 768), 20, (800, 600)⟩ }).map
      (fun t => decide (GpuOp.updateGlobalsBuffer ∈ t.2.2)) = some false := by
  decide

/-- Claim C6, amended.  Every successful Prepare phase pushes the updated
camera value to the camera buffer and the updated voxel-world data to its
texture, destroys whichever of the two bind groups were present, and recreates
both bind groups against the current pipelines and the current resource
handles; it does *not* push the global-parameter values (the globals state,
including the value last pushed to its buffer, is left unchanged — the globals
buffer is pushed only on startup and resize). -/
theorem prepare_phase_effects (r : Renderer) (g : Game) (cpl rpl : Nat)
    (hc : g.compute_pipeline = some cpl) (hr : g.render_pipeline = some rpl)
    (hbg : ∀ bg, g.render_bind_group = some bg → bg ≠ r.nextHandle) :
    ∃ r2 g2 ops, Game.prepare_rendering r g = some (r2, g2, ops)
      ∧ g2.camera.bufferContent = g.camera.state
      ∧ g2.world.textureContent = g.world.data
      ∧ (∀ bg, g.compute_bind_group = some bg →
          GpuOp.destroyBindGroup bg ∈ ops)
      ∧ (∀ bg, g.render_bind_group = some bg →
          GpuOp.destroyBindGroup bg ∈ ops)
      ∧ (∃ cbg, g2.compute_bind_group = some cbg
          ∧ lookupAssoc cbg r2.bindGroups
              = some ⟨cpl, computeBindingsOf g⟩)
      ∧ (∃ rbg, g2.render_bind_group = some rbg
          ∧ lookupAssoc rbg r2.bindGroups
              = some ⟨rpl, renderBindingsOf g⟩)
      ∧ g2.globals = g.globals
      ∧ GpuOp.updateGlobalsBuffer ∉ ops := by
  refine ⟨_, _, _, prepare_rendering_eq r g cpl rpl hc hr,
    rfl, rfl, ?_, ?_, ?_, ?_, rfl, ?_⟩
  · intro bg hb
    simp [prepOps, hb]
  · intro bg hb
    simp [prepOps, hb]
  · exact ⟨r.nextHandle, rfl, prepBindGroups_lookup_cbg r g cpl rpl hbg⟩
  · exact ⟨r.nextHandle + 1, rfl, prepBindGroups_lookup_rbg r g cpl rpl⟩
  · cases hcb : g.compute_bind_group <;> cases hrb : g.render_bind_group <;>
      simp [prepOps, hcb, hrb]

theorem prepare_phase_effects_witness :
    ∃ r2 g2 ops, Game.prepare_rendering sampleRenderer sampleGame
        = some (r2, g2, ops)
      ∧ g2.camera.bufferContent = sampleGame.camera.state
      ∧ g2.world.textureContent = sampleGame.world.data
      ∧ (∀ bg, sampleGame.compute_bind_group = some bg →
          GpuOp.destroyBindGroup bg ∈ ops)
      ∧ (∀ bg, sampleGame.render_bind_group = some bg →
          GpuOp.destroyBindGroup bg ∈ ops)
      ∧ (∃ cbg, g2.compute_bind_group = some cbg
          ∧ lookupAssoc cbg r2.bindGroups
              = some ⟨4, computeBindingsOf sampleGame⟩)
      ∧ (∃ rbg, g2.render_bind_group = some rbg
          ∧ lookupAssoc rbg r2.bindGroups
              = some ⟨2, renderBindingsOf sampleGame⟩)
      ∧ g2.globals = sampleGame.globals
      ∧ GpuOp.updateGlobalsBuffer ∉ ops :=
  prepare_phase_effects sampleRenderer sampleGame 4 2 rfl rfl (by decide)

/-- Claim C7.  `resize(width, height)` resizes the surface to the new
resolution, recreates the intermediate output texture at `(width, height)`
with the same `Rgba8Uint` format and the same usage flags written at creation,
and sets the global-parameters size to `(width, height)` and pushes it to the
globals buffer. -/
theorem resize_recreates_texture_and_globals (r : Renderer) (g : Game)
    (w h : Nat) (d : TextureDesc)
    (htex : lookupAssoc g.output_texture r.textures = some d) :
    (Game.resize r g w h).1.surface = ⟨w, h⟩
    ∧ lookupAssoc g.output_texture (Game.resize r g w h).1.textures
        = some (resizeTextureDesc w h)
    ∧ (resizeTextureDesc w h).width = w
    ∧ (resizeTextureDesc w h).height = h
    ∧ (resizeTextureDesc w h).format = newTextureDesc.format
    ∧ (resizeTextureDesc w h).usage = newTextureDesc.usage
    ∧ (Game.resize r g w h).2.1.globals.size = (w, h)
    ∧ (Game.resize r g w h).2.1.globals.bufferContent = (w, h) := by
  refine ⟨rfl, ?_, rfl, rfl, rfl, rfl, rfl, rfl⟩
  exact lookupAssoc_replaceAssoc _ _ d _ htex

theorem resize_recreates_texture_and_globals_witness :
    (Game.resize sampleRenderer sampleGame 1024 768).1.surface = ⟨1024, 768⟩
    ∧ lookupAssoc sampleGame.output_texture
        (Game.resize sampleRenderer sampleGame 1024 768).1.textures
        = some (resizeTextureDesc 1024 768)
    ∧ (resizeTextureDesc 1024 768).width = 1024
    ∧ (resizeTextureDesc 1024 768).height = 768
    ∧ (resizeTextureDesc 1024 768).format = newTextureDesc.format
    ∧ (resizeTextureDesc 1024 768).usage = newTextureDesc.usage
    ∧ (Game.resize sampleRenderer sampleGame 1024 768).2.1.globals.size
        = (1024, 768)
    ∧ (Game.resize sampleRenderer sampleGame 1024 768).2.1.globals.bufferContent
        = (1024, 768) :=
  resize_recreates_texture_and_globals sampleRenderer sampleGame 1024 768
    newTextureDesc (by decide)

/-- Claim C8.  Resize is idempotent for fixed dimensions: calling
`resize(w, h)` twice in a row leaves the renderer state (surface, texture
table, arena) and the game state (globals included) identical to calling it
once. -/
theorem resize_idempotent (r : Renderer) (g : Game) (w h : Nat) :
    (Game.resize (Game.resize r g w h).1 (Game.resize r g w h).2.1 w h).1
      = (Game.resize r g w h).1
    ∧ (Game.resize (Game.resize r g w h).1 (Game.resize r g w h).2.1 w h).2.1
      = (Game.resize r g w h).2.1 := by
  constructor <;>
    simp [Game.resize, Renderer.updateTexture, Renderer.resizeSurface,
      Globals.setSize, Globals.updateBuffer, replaceAssoc_idem]

lemma reloadRender_compute_unchanged (fs : FileSys) (r : Renderer) (g : Game) :
    (Game.reloadRender fs r g).2.1.compute_shader = g.compute_shader
    ∧ (Game.reloadRender fs r g).2.1.compute_pipeline = g.compute_pipeline
    ∧ (Game.reloadRender fs r g).2.1.compute_bind_group = g.compute_bind_group
    ∧ (Game.reloadRender fs r g).2.1.output_texture = g.output_texture := by
  unfold Game.reloadRender
  cases hrs : g.render_shader <;> cases hrp : g.render_pipeline <;>
    cases hfs : fs "src/shaders/render.wgsl" <;>
    simp [Game.create_shader, hfs, Game.create_render_pipeline]

lemma reloadCompute_render_unchanged (fs : FileSys) (r : Renderer) (g : Game) :
    (Game.reloadCompute fs r g).2.1.render_shader = g.render_shader
    ∧ (Game.reloadCompute fs r g).2.1.render_pipeline = g.render_pipeline
    ∧ (Game.reloadCompute fs r g).2.1.render_bind_group = g.render_bind_group
    ∧ (Game.reloadCompute fs r g).2.1.output_texture = g.output_texture := by
  unfold Game.reloadCompute
  cases hcs : g.compute_shader <;> cases hcp : g.compute_pipeline <;>
    cases hfs : fs "src/shaders/compute.wgsl" <;>
    simp [Game.create_shader, hfs, Game.create_compute_pipeline]

lemma reloadPath_compute_unchanged (fs : FileSys) (r : Renderer) (g : Game)
    (p : EventPath) (hp : p.stem ≠ some "compute") :
    (Game.reloadPath fs r g p).2.1.compute_shader = g.compute_shader
    ∧ (Game.reloadPath fs r g p).2.1.compute_pipeline = g.compute_pipeline
    ∧ (Game.reloadPath fs r g p).2.1.compute_bind_group = g.compute_bind_group := by
  obtain ⟨ok, stem⟩ := p
  cases ok
  · exact ⟨rfl, rfl, rfl⟩
  · cases stem with
    | none => exact ⟨rfl, rfl, rfl⟩
    | some s =>
      by_cases hs : s = "render"
      · subst hs
        rw [reloadPath_render]
        exact ⟨(reloadRender_compute_unchanged fs r g).1,
          (reloadRender_compute_unchanged fs r g).2.1,
          (reloadRender_compute_unchanged fs r g).2.2.1⟩
      · have hc : ¬(s = "compute") := fun hh => hp (by rw [hh])
        simp only [Game.reloadPath, if_neg hs, if_neg hc]
        exact ⟨rfl, rfl, rfl⟩

lemma reloadPath_render_unchanged (fs : FileSys) (r : Renderer) (g : Game)
    (p : EventPath) (hp : p.stem ≠ some "render") :
    (Game.reloadPath fs r g p).2.1.render_shader = g.render_shader
    ∧ (Game.reloadPath fs r g p).2.1.render_pipeline = g.render_pipeline
    ∧ (Game.reloadPath fs r g p).2.1.render_bind_group = g.render_bind_group := by
  obtain ⟨ok, stem⟩ := p
  cases ok
  · exact ⟨rfl, rfl, rfl⟩
  · cases stem with
    | none => exact ⟨rfl, rfl, rfl⟩
    | some s =>
      by_cases hs : s = "render"
      · exact absurd (by rw [hs]) hp
      · by_cases hc : s = "compute"
        · subst hc
          rw [reloadPath_compute]
          exact ⟨(reloadCompute_render_unchanged fs r g).1,
            (reloadCompute_render_unchanged fs r g).2.1,
            (reloadCompute_render_unchanged fs r g).2.2.1⟩
        · simp only [Game.reloadPath, if_neg hs, if_neg hc]
          exact ⟨rfl, rfl, rfl⟩

lemma reloadPath_output_texture (fs : FileSys) (r : Renderer) (g : Game)
    (p : EventPath) :
    (Game.reloadPath fs r g p).2.1.output_texture = g.output_texture := by
  obtain ⟨ok, stem⟩ := p
  cases ok
  · rfl
  · cases stem with
    | none => rfl
    | some s =>
      by_cases hs : s = "render"
      · subst hs
        rw [reloadPath_render]
        exact (reloadRender_compute_unchanged fs r g).2.2.2
      · by_cases hc : s = "compute"
        · subst hc
          rw [reloadPath_compute]
          exact (reloadCompute_render_unchanged fs r g).2.2.2
        · simp [Game.reloadPath, if_neg hs, if_neg hc]

lemma reloadPaths_compute_unchanged (fs : FileSys) (ps : List EventPath) :
    ∀ (r : Renderer) (g : Game), (∀ p ∈ ps, p.stem ≠ some "compute") →
      (Game.reloadPaths fs r g ps).2.1.compute_shader = g.compute_shader
      ∧ (Game.reloadPaths fs r g ps).2.1.compute_pipeline = g.compute_pipeline
      ∧ (Game.reloadPaths fs r g ps).2.1.compute_bind_group
          = g.compute_bind_group := by
  induction ps with
  | nil => exact fun r g _ => ⟨rfl, rfl, rfl⟩
  | cons p t ih =>
    intro r g hp
    have h1 := reloadPath_compute_unchanged fs r g p (hp p (by simp))
    have h2 := ih (Game.reloadPath fs r g p).1 (Game.reloadPath fs r g p).2.1
      (fun q hq => hp q (by simp [hq]))
    exact ⟨h2.1.trans h1.1, h2.2.1.trans h1.2.1, h2.2.2.trans h1.2.2⟩

lemma reloadPaths_render_unchanged (fs : FileSys) (ps : List EventPath) :
    ∀ (r : Renderer) (g : Game), (∀ p ∈ ps, p.stem ≠ some "render") →
      (Game.reloadPaths fs r g ps).2.1.render_shader = g.render_shader
      ∧ (Game.reloadPaths fs r g ps).2.1.render_pipeline = g.render_pipeline
      ∧ (Game.reloadPaths fs r g ps).2.1.render_bind_group
          = g.render_bind_group := by
  induction ps with
  | nil => exact fun r g _ => ⟨rfl, rfl, rfl⟩
  | cons p t ih =>
    intro r g hp
    have h1 := reloadPath_render_unchanged fs r g p (hp p (by simp))
    have h2 := ih (Game.reloadPath fs r g p).1 (Game.reloadPath fs r g p).2.1
      (fun q hq => hp q (by simp [hq]))
    exact ⟨h2.1.trans h1.1, h2.2.1.trans h1.2.1, h2.2.2.trans h1.2.2⟩

lemma reloadPaths_output_texture (fs : FileSys) (ps : List EventPath) :
    ∀ (r : Renderer) (g : Game),
      (Game.reloadPaths fs r g ps).2.1.output_texture = g.output_texture := by
  induction ps with
  | nil => exact fun r g => rfl
  | cons p t ih =>
    intro r g
    exact (ih (Game.reloadPath fs r g p).1 (Game.reloadPath fs r g p).2.1).trans
      (reloadPath_output_texture fs r g p)

lemma hot_reload_output_texture (fs : FileSys) (r : Renderer) (g : Game)
    (ev : Option WatchEvent) :
    (Game.hot_reload fs r g ev).2.1.output_texture = g.output_texture := by
  cases ev with
  | none => rfl
  | some e =>
    by_cases hk : e.kind = EventKind.modify
    · simp only [Game.hot_reload, if_pos hk]
      exact reloadPaths_output_texture fs e.paths r g
    · simp [Game.hot_reload, if_neg hk]

/-- Claim C9.  `hot_reload` mutates only the shader/pipeline state of the
stage named by the event: an event none of whose paths resolve to the
`compute` stem leaves `compute_shader`, `compute_pipeline` and
`compute_bind_group` unchanged; an event none of whose paths resolve to the
`render` stem leaves `render_shader`, `render_pipeline` and
`render_bind_group` unchanged; and any watcher event whose kind is not
`Modify` leaves the whole `Game` state unchanged. -/
theorem hot_reload_frame_effect (fs : FileSys) (r : Renderer) (g : Game)
    (e : WatchEvent) :
    (e.kind ≠ EventKind.modify → (Game.hot_reload fs r g (some e)).2.1 = g)
    ∧ ((∀ p ∈ e.paths, p.stem ≠ some "compute") →
        (Game.hot_reload fs r g (some e)).2.1.compute_shader = g.compute_shader
        ∧ (Game.hot_reload fs r g (some e)).2.1.compute_pipeline
            = g.compute_pipeline
        ∧ (Game.hot_reload fs r g (some e)).2.1.compute_bind_group
            = g.compute_bind_group)
    ∧ ((∀ p ∈ e.paths, p.stem ≠ some "render") →
        (Game.hot_reload fs r g (some e)).2.1.render_shader = g.render_shader
        ∧ (Game.hot_reload fs r g (some e)).2.1.render_pipeline
            = g.render_pipeline
        ∧ (Game.hot_reload fs r g (some e)).2.1.render_bind_group
            = g.render_bind_group) := by
  refine ⟨?_, ?_, ?_⟩
  · intro hk
    simp [Game.hot_reload, if_neg hk]
  · intro hp
    by_cases hk : e.kind = EventKind.modify
    · simp only [Game.hot_reload, if_pos hk]
      exact reloadPaths_compute_unchanged fs e.paths r g hp
    · simp [Game.hot_reload, if_neg hk]
  · intro hp
    by_cases hk : e.kind = EventKind.modify
    · simp only [Game.hot_reload, if_pos hk]
      exact reloadPaths_render_unchanged fs e.paths r g hp
    · simp [Game.hot_reload, if_neg hk]

theorem hot_reload_frame_effect_witness :
    (Game.hot_reload fsOk sampleRenderer sampleGame
        (some ⟨EventKind.access, [⟨true, some "other"⟩]⟩)).2.1 = sampleGame
    ∧ ((Game.hot_reload fsOk sampleRenderer sampleGame
          (some ⟨EventKind.access, [⟨true, some "other"⟩]⟩)).2.1.compute_shader
          = sampleGame.compute_shader
        ∧ (Game.hot_reload fsOk sampleRenderer sampleGame
            (some ⟨EventKind.access, [⟨true, some "other"⟩]⟩)).2.1.compute_pipeline
            = sampleGame.compute_pipeline
        ∧ (Game.hot_reload fsOk sampleRenderer sampleGame
            (some ⟨EventKind.access, [⟨true, some "other"⟩]⟩)).2.1.compute_bind_group
            = sampleGame.compute_bind_group)
    ∧ ((Game.hot_reload fsOk sampleRenderer sampleGame
          (some ⟨EventKind.access, [⟨true, some "other"⟩]⟩)).2.1.render_shader
          = sampleGame.render_shader
        ∧ (Game.hot_reload fsOk sampleRenderer sampleGame
            (some ⟨EventKind.access, [⟨true, some "other"⟩]⟩)).2.1.render_pipeline
            = sampleGame.render_pipeline
        ∧ (Game.hot_reload fsOk sampleRenderer sampleGame
            (some ⟨EventKind.access, [⟨true, some "other"⟩]⟩)).2.1.render_bind_group
            = sampleGame.render_bind_group) :=
  ⟨(hot_reload_frame_effect fsOk sampleRenderer sampleGame
      ⟨EventKind.access, [⟨true, some "other"⟩]⟩).1 (by decide),
   (hot_reload_frame_effect fsOk sampleRenderer sampleGame
      ⟨EventKind.access, [⟨true, some "other"⟩]⟩).2.1 (by decide),
   (hot_reload_frame_effect fsOk sampleRenderer sampleGame
      ⟨EventKind.access, [⟨true, some "other"⟩]⟩).2.2 (by decide)⟩

/-- Claim C10.  After every successful `prepare_rendering`, the compute bind
group's binding 1 and the render bind group's binding 0 reference the same
texture handle, the `Game`'s `output_texture` field; that field is assigned in
`Game::new` (which registers it in the arena with the 800×600 creation
descriptor) and is never reassigned by `prepare_rendering`, `hot_reload` or
`resize` (and `render` does not mutate the `Game` at all), so the render stage
always samples the texture the compute stage writes. -/
theorem output_texture_shared_and_stable (r : Renderer) (g : Game)
    (cpl rpl : Nat)
    (hc : g.compute_pipeline = some cpl) (hr : g.render_pipeline = some rpl)
    (hbg : ∀ bg, g.render_bind_group = some bg → bg ≠ r.nextHandle) :
    (∃ r2 g2 ops, Game.prepare_rendering r g = some (r2, g2, ops)
      ∧ g2.output_texture = g.output_texture
      ∧ (∃ cbg rec1, g2.compute_bind_group = some cbg
          ∧ lookupAssoc cbg r2.bindGroups = some rec1
          ∧ rec1.bindingAt 1 = some (BindingResource.texture g.output_texture))
      ∧ (∃ rbg rec2, g2.render_bind_group = some rbg
          ∧ lookupAssoc rbg r2.bindGroups = some rec2
          ∧ rec2.bindingAt 0 = some (BindingResource.texture g.output_texture)))
    ∧ (∀ (fs : FileSys) (ev : Option WatchEvent),
        (Game.hot_reload fs r g ev).2.1.output_texture = g.output_texture)
    ∧ (∀ w h2, (Game.resize r g w h2).2.1.output_texture = g.output_texture)
    ∧ (∀ r0, lookupAssoc (Game.new r0).2.output_texture (Game.new r0).1.textures
        = some newTextureDesc) := by
  refine ⟨?_, ?_, ?_, ?_⟩
  · refine ⟨_, _, _, prepare_rendering_eq r g cpl rpl hc hr, rfl, ?_, ?_⟩
    · exact ⟨r.nextHandle, ⟨cpl, computeBindingsOf g⟩, rfl,
        prepBindGroups_lookup_cbg r g cpl rpl hbg, rfl⟩
    · exact ⟨r.nextHandle + 1, ⟨rpl, renderBindingsOf g⟩, rfl,
        prepBindGroups_lookup_rbg r g cpl rpl, rfl⟩
  · exact fun fs ev => hot_reload_output_texture fs r g ev
  · exact fun w h2 => rfl
  · intro r0
    simp [Game.new, Renderer.freshHandle, Renderer.newTexture, lookupAssoc]

theorem output_texture_shared_and_stable_witness :
    (∃ r2 g2 ops, Game.prepare_rendering sampleRenderer sampleGame
        = some (r2, g2, ops)
      ∧ g2.output_texture = sampleGame.output_texture
      ∧ (∃ cbg rec1, g2.compute_bind_group = some cbg
          ∧ lookupAssoc cbg r2.bindGroups = some rec1
          ∧ rec1.bindingAt 1
              = some (BindingResource.texture sampleGame.output_texture))
      ∧ (∃ rbg rec2, g2.render_bind_group = some rbg
          ∧ lookupAssoc rbg r2.bindGroups = some rec2
          ∧ rec2.bindingAt 0
              = some (BindingResource.texture sampleGame.output_texture)))
    ∧ (∀ (fs : FileSys) (ev : Option WatchEvent),
        (Game.hot_reload fs sampleRenderer sampleGame ev).2.1.output_texture
          = sampleGame.output_texture)
    ∧ (∀ w h2, (Game.resize sampleRenderer sampleGame w h2).2.1.output_texture
        = sampleGame.output_texture)
    ∧ (∀ r0, lookupAssoc (Game.new r0).2.output_texture (Game.new r0).1.textures
        = some newTextureDesc) :=
  output_texture_shared_and_stable sampleRenderer sampleGame 4 2 rfl rfl
    (by decide)

end Octo
